import Mathlib

set_option maxRecDepth 100000

/-!
Shallow embedding of the SZGX_Speech text-processing pipeline
(`speech_processing_api/app/services/`): the chunk assembler and
emotion-merge loop of `text_processor.TextSegmentProcessor.segment_by_emotion`,
the unicode normalization, validation, per-segment improvement, deduplication
and summary logic of `text_processor.TextProcessor.process_text`, the greedy
similarity filter of `deduplication.DuplicationDetector.find_duplicates`, and
the response validation of `emotion_analyzer.EmotionAnalyzer`.

Python strings are modelled as `List Char`; the floats in emotion scores are
modelled as `ℚ` (only order comparisons against 0.5, 0.85 and the 0..5 range
occur); external network calls (emotion classification, text improvement,
embedding) are passed in as oracle functions, and a ghost log of the token
charge of every external call actually made is threaded through the pipeline
so that usage-accounting statements can compare the reported total with the
true sum of charges.
-/

namespace SZGX

abbrev Text := List Char

/-! Exact rational arithmetic, written through `mkRat` so that it evaluates
under `decide` (the library's `Rat.add`, `Rat.sub`, `Rat.mul` are marked
irreducible, which blocks evaluation); the lemmas `ratSub_eq`, `ratMul_eq`,
`ratAdd_eq` and `ratAbs_eq` below identify them with the field operations
of `ℚ`. -/

/-- Exact rational subtraction (agrees with `a - b`, see `ratSub_eq`). -/
def ratSub (a b : ℚ) : ℚ := mkRat (a.num * (b.den : Int) - b.num * (a.den : Int)) (a.den * b.den)

/-- Exact rational multiplication (agrees with `a * b`, see `ratMul_eq`). -/
def ratMul (a b : ℚ) : ℚ := mkRat (a.num * b.num) (a.den * b.den)

/-- Exact rational addition (agrees with `a + b`, see `ratAdd_eq`). -/
def ratAdd (a b : ℚ) : ℚ := mkRat (a.num * (b.den : Int) + b.num * (a.den : Int)) (a.den * b.den)

/-- Exact rational absolute value (agrees with `|q|`, see `ratAbs_eq`). -/
def ratAbs (q : ℚ) : ℚ := if q.num < 0 then mkRat (-q.num) q.den else q

/-- An emotion classification as consumed by the pipeline:
`{"emotion": <label>, "score": <number>}`. -/
structure Emotion where
  emotion : String
  score : ℚ
deriving DecidableEq, Repr

/-- A raw segment produced by `segment_by_emotion`:
`{"text": ..., "emotion": ...}`. -/
structure Segment where
  text : Text
  emotion : Emotion
deriving DecidableEq, Repr

/-- `transition_markers` of `segment_by_emotion` (text_processor.py line 58). -/
def transitionMarkers : List Text :=
  ["但是".toList, "然而".toList, "不过".toList, "可是".toList,
   "却".toList, "反而".toList, "相反".toList]

/-- `positive_emotions` (text_processor.py line 114). -/
def positiveEmotions : List String := ["喜悦", "惊喜", "期待", "满意"]

/-- `negative_emotions` (text_processor.py line 115). -/
def negativeEmotions : List String := ["忧虑", "悲伤", "恐惧", "愤怒", "失望", "焦虑"]

/-- `neutral_emotions` (text_processor.py line 116). -/
def neutralEmotions : List String := ["平静", "中性"]

/-- `Except.isError`, written out so statements do not depend on library
helpers. -/
def isErr {ε α : Type} : Except ε α → Bool
  | .error _ => true
  | .ok _ => false

/-! ## Chunk assembly (text_processor.py lines 74-92)

The greedy packing loop of `segment_by_emotion`: sentence units are appended
to the current chunk while the combined character length stays within
`self.chunk_size`; a unit that would overflow closes the current chunk and
seeds a new one.  After the loop the source contains the trailing flush
*twice* (lines 87-89 and lines 91-92 are a duplicated block). -/

/-- One iteration of the packing loop (lines 80-85): state is
`(current_chunk, chunks)`. -/
def assembleStep (chunkSize : Nat) : Text × List Text → Text → Text × List Text
  | (cur, chunks), s =>
    if cur.length + s.length > chunkSize then
      (s, if cur ≠ [] then chunks ++ [cur] else chunks)
    else (cur ++ s, chunks)

/-- The chunk assembly of `segment_by_emotion` (lines 74-92), including the
duplicated trailing flush `if current_chunk: chunks.append(current_chunk)`
which appears twice in the source (lines 87-89 and again lines 91-92). -/
def assembleChunks (chunkSize : Nat) (sentences : List Text) : List Text :=
  let (cur, chunks) := sentences.foldl (assembleStep chunkSize) ([], [])
  if cur ≠ [] then (chunks ++ [cur]) ++ [cur] else chunks

/-! ## Unicode normalization (text_processor.py lines 213-241)

`process_text` builds `normalized_text` character by character: characters in
the GBK-specific reserved set are passed through, traditional characters in a
fixed 15-entry table are replaced by their simplified forms, and every other
character goes through `char.encode().decode('utf-8')`, which is the identity
on valid Unicode scalar values (Lean's `Char` is a Unicode scalar value by
construction, so the `UnicodeError` branch at lines 236-238 is unreachable in
this model).  `special_chars_map` is keyed by index but its value is always
the character at that index, so the whole step is a character-wise map. -/

/-- `gbk_specific_chars` (text_processor.py lines 214-218). -/
def gbkSpecificChars : List Char :=
  ['㈠', '㈡', '㈢', '㈣', '㈤', '㈥', '㈦', '㈧', '㈨', '㈩',
   '㊀', '㊁', '㊂', '㊃', '㊄', '㊅', '㊆', '㊇', '㊈', '㊉',
   '㋀', '㋁', '㋂', '㋃', '㋄', '㋅', '㋆', '㋇', '㋈', '㋉', '㋊', '㋋']

/-- The traditional→simplified substitution table
(text_processor.py lines 227-232). -/
def tradSimpPairs : List (Char × Char) :=
  [('說', '说'), ('話', '话'), ('時', '时'), ('經', '经'), ('會', '会'),
   ('這', '这'), ('個', '个'), ('們', '们'), ('從', '从'), ('應', '应'),
   ('將', '将'), ('為', '为'), ('與', '与'), ('無', '无'), ('實', '实')]

/-- Normalization of one character (the body of the loop at lines 224-234). -/
def normalizeChar (c : Char) : Char :=
  if gbkSpecificChars.contains c then c
  else
    match tradSimpPairs.lookup c with
    | some s => s
    | none => c

/-- The full normalization step of `process_text` (lines 222-235). -/
def normalizeText (t : Text) : Text := t.map normalizeChar

/-! ## Emotion-merge loop (text_processor.py lines 103-138) -/

/-- Python's substring containment `pat in t`. -/
def containsSub (pat : Text) : Text → Bool
  | [] => pat.isEmpty
  | c :: rest => pat.isPrefixOf (c :: rest) || containsSub pat rest

/-- `any(marker in chunks[i] for marker in transition_markers)`
(text_processor.py line 123). -/
def containsMarker (t : Text) : Bool :=
  transitionMarkers.any fun m => containsSub m t

/-- The segment-break condition of `segment_by_emotion`
(text_processor.py lines 110-123): label change, score delta above 0.5,
positive/negative polarity crossing in either direction, non-neutral followed
by neutral, or a transition marker inside the incoming chunk's text. -/
def mergeBreak (cur next : Emotion) (chunkText : Text) : Bool :=
  (next.emotion ≠ cur.emotion : Bool) ||
  decide (mkRat 1 2 < ratAbs (ratSub next.score cur.score)) ||
  (positiveEmotions.contains cur.emotion && negativeEmotions.contains next.emotion) ||
  (positiveEmotions.contains next.emotion && negativeEmotions.contains cur.emotion) ||
  (!neutralEmotions.contains cur.emotion && neutralEmotions.contains next.emotion) ||
  containsMarker chunkText

/-- The body of the merge loop (text_processor.py lines 108-138): state is
`(current_segment, current_emotion, segments)`; after the loop the final open
segment is appended when its text is non-empty (`if current_segment:`). -/
def segLoop : Text → Emotion → List Segment → List (Text × Emotion) → List Segment
  | cur, curE, acc, [] => if cur ≠ [] then acc ++ [⟨cur, curE⟩] else acc
  | cur, curE, acc, (c, e) :: rest =>
    if mergeBreak curE e c then segLoop c e (acc ++ [⟨cur, curE⟩]) rest
    else segLoop (cur ++ c) curE acc rest

/-- The segment construction of `segment_by_emotion`
(text_processor.py lines 103-138): seeded with `chunks[0]`/`emotions[0]`,
then the merge loop over the remaining chunks.  The source indexes
`chunks[0]` unconditionally; the caller guarantees `chunks` is non-empty
(lines 94-95 replace an empty chunk list by `[text]`), so the empty case is
unreachable there. -/
def buildSegments (chunks : List Text) (emotions : List Emotion) : List Segment :=
  match chunks, emotions with
  | c0 :: ctl, e0 :: etl => segLoop c0 e0 [] (ctl.zip etl)
  | _, _ => []

/-- Modelled from the spec (§4.6): the reference segmenter.  It opens a new
segment exactly when `mergeBreak` holds between the running segment's emotion
and the incoming chunk, otherwise appends the chunk's text without
re-classifying, seeds every segment's emotion with its first constituent
chunk's emotion, and always emits the final open segment. -/
def groupByEmotion : Text → Emotion → List (Text × Emotion) → List Segment
  | cur, curE, [] => [⟨cur, curE⟩]
  | cur, curE, (c, e) :: rest =>
    if mergeBreak curE e c then ⟨cur, curE⟩ :: groupByEmotion c e rest
    else groupByEmotion (cur ++ c) curE rest

/-! ## Emotion analyzer (emotion_analyzer.py, token_utils.py)

`EmotionAnalyzer.analyze` first enforces the token budget
(`estimate_tokens(text) > MAX_TOKENS` raises, lines 117-120), then calls the
primary provider through `retry_with_timeout`.  The retry wrapper
(token_utils.py lines 24-33) is declared with
`retry_error_callback=lambda retry_state: {"error": ...}`: after
`MAX_RETRIES` failed attempts it *returns* the error dictionary instead of
raising, so the `except` branch of `analyze` (lines 191-203), which holds the
DeepSeek fallback and the bounded re-try cycle, cannot be reached from a
validation failure; `analyze` simply returns the error dictionary to its
caller.  The fallback body `_make_deepseek_call` (lines 68-111) is embedded
separately below; it performs no validation of the returned label. -/

/-- Token usage of one provider call. -/
structure Usage where
  promptTokens : Nat
  completionTokens : Nat
  totalTokens : Nat
deriving DecidableEq, Repr

/-- The closed nine-label set (emotion_analyzer.py line 158). -/
def validEmotions : List String :=
  ["喜悦", "愤怒", "悲伤", "惊讶", "忧虑", "恐惧", "期待", "满意", "焦虑"]

/-- `MAX_TOKENS` (token_utils.py line 14, environment default 16000). -/
def MAX_TOKENS : Nat := 16000

/-- `MAX_RETRIES` (token_utils.py line 19, environment default 5). -/
def MAX_RETRIES : Nat := 5

/-- Abstraction of a provider message body as seen by the JSON validation of
`_make_openai_call` (emotion_analyzer.py lines 145-162): whether
`json.loads` succeeds, whether the parsed value is a dict, whether the
`emotion`/`score` keys are present, the label string, and the score when it
is numeric (`none` models a non-numeric score value). -/
structure RawContent where
  parseOk : Bool
  parsesToDict : Bool
  hasEmotionField : Bool
  hasScoreField : Bool
  emotionVal : String
  scoreVal : Option ℚ
deriving DecidableEq, Repr

/-- The response validation of `_make_openai_call`
(emotion_analyzer.py lines 145-175), in source order: JSON parse, dict
check, required fields, the `"unknown"` sentinel, the closed label set, the
numeric 0..5 score range. -/
def validateContent (r : RawContent) : Except String Emotion :=
  if r.parseOk = false then .error "Invalid JSON response from OpenAI API"
  else if r.parsesToDict = false then .error "Expected dict response"
  else if r.hasEmotionField = false || r.hasScoreField = false then
    .error "Missing required fields in response"
  else if r.emotionVal = "unknown" then .error "Model returned unknown emotion"
  else if validEmotions.contains r.emotionVal = false then .error "Invalid emotion type"
  else
    match r.scoreVal with
    | none => .error "Invalid emotion score"
    | some q => if 0 ≤ q ∧ q ≤ 5 then .ok ⟨r.emotionVal, q⟩ else .error "Invalid emotion score"

/-- `_make_openai_call` (emotion_analyzer.py lines 122-186): `none` models
an empty `choices`/`message.content` or missing usage (lines 134-140, both
raise); otherwise the content is validated and paired with the usage. -/
def makeOpenaiCall (resp : Option (RawContent × Usage)) : Except String (Emotion × Usage) :=
  match resp with
  | none => .error "Empty response from OpenAI"
  | some (rc, u) => (validateContent rc).map fun e => (e, u)

/-- `retry_with_timeout` (token_utils.py lines 24-33): up to `fuel` attempts
(`stop_after_attempt(MAX_RETRIES)`); the first success is returned; after the
last failure the `retry_error_callback` *returns* the error dictionary
(`Sum.inr`) instead of raising.  The attempt index lets the modelled provider
answer differently per attempt. -/
def retryWithTimeout {α : Type} (f : Nat → Except String α) : Nat → Nat → α ⊕ String
  | _, 0 => .inr "no attempts"
  | i, fuel + 1 =>
    match f i with
    | .ok a => .inl a
    | .error e => if fuel = 0 then .inr e else retryWithTimeout f (i + 1) fuel

/-- What `analyze` hands back to its caller: a classification dictionary
`{"emotion": ..., "usage": ...}` or the retry wrapper's final-failure
dictionary `{"error": ...}`. -/
inductive AnalyzeRet where
  | classified (e : Emotion) (u : Usage)
  | errorDict (msg : String)
deriving DecidableEq, Repr

/-- `EmotionAnalyzer.analyze` (emotion_analyzer.py lines 113-205) with the
provider's per-attempt response as an oracle.  The token-budget check raises
(wrapped by the outer handler at lines 204-205); afterwards the result of
`retry_with_timeout` — success or final-failure dictionary — is returned
directly (lines 188-190).  The DeepSeek fallback in the `except` branch
(lines 191-203) is unreachable because the retry wrapper returns its
final-failure value rather than raising; it is embedded as
`makeDeepseekCall` below. -/
def analyze (estTokens : Nat) (openaiResp : Nat → Option (RawContent × Usage)) :
    Except String AnalyzeRet :=
  if MAX_TOKENS < estTokens then
    .error "Error analyzing emotion: Text too long"
  else
    match retryWithTimeout (fun i => makeOpenaiCall (openaiResp i)) 0 MAX_RETRIES with
    | .inl (e, u) => .ok (.classified e u)
    | .inr msg => .ok (.errorDict msg)

/-- `_make_deepseek_call` (emotion_analyzer.py lines 68-111): non-200 status
raises, empty `choices`/`content` raises, a JSON parse failure raises, and
otherwise the parsed content is returned as the classification *without any
label validation*. -/
def makeDeepseekCall (status : Nat) (content : Option RawContent) (u : Usage) :
    Except String (RawContent × Usage) :=
  if status ≠ 200 then .error "DeepSeek API error"
  else
    match content with
    | none => .error "Empty response from DeepSeek"
    | some rc => if rc.parseOk then .ok (rc, u) else .error "json decode error"

/-- The program's true behavior at the boundary where `segment_by_emotion`
consumes the analyzer (text_processor.py lines 99-101), as a function of the
chunk's token estimate and the primary provider's per-attempt responses:
`analyze` is called, and then line 100 reads `result["result"]` from the
returned dictionary.  That dictionary carries the keys `"emotion"`/`"usage"`
(a classification, `AnalyzeRet.classified`) or `"error"` (the retry
wrapper's final-failure dictionary, `AnalyzeRet.errorDict`), never
`"result"`, so the read raises `KeyError` for every possible return; when
`analyze` itself raises (e.g. its token-budget check), that exception
propagates unchanged.  Hence this call never succeeds: every partition dies
at its first chunk and `process_text` raises for every input that passes
validation — contradicting the repository's own tests, which assert
populated segments and usage. -/
def emotionCallOfAnalyze (est : Text → Nat)
    (resp : Text → Nat → Option (RawContent × Usage)) :
    Text → Except String (Emotion × Nat) :=
  fun chunk =>
    match analyze (est chunk) (resp chunk) with
    | .error e => .error e
    | .ok (.classified _ _) => .error "KeyError: result"
    | .ok (.errorDict _) => .error "KeyError: result"

/-! ## The pipeline (text_processor.py `TextProcessor.process_text`)

External calls are oracles:
* `emotionCall` is the boundary at which `segment_by_emotion` consumes the
  analyzer (lines 99-101): a function from the chunk to what the paired
  reads `result["result"]` / `result["usage"]["total_tokens"]` yield —
  a classification with its token count, or a raise.  The program's *true*
  behavior at this boundary is `emotionCallOfAnalyze` below: `analyze` only
  ever returns dictionaries keyed `"emotion"`/`"usage"` or `"error"`, never
  `"result"`, so the line-100 read raises `KeyError` on every return and
  the success case never occurs in the program.  Oracles that do grant a
  success describe the *intended* consumption; they are used only to
  instantiate oracle-quantified conditional theorems, never to assert
  concrete program behavior;
* `splitter` models the regex sentence split plus transition-marker
  post-split (lines 52-72), which no claim quantifies over; concrete
  instantiations below are hand-checked against the regex on their inputs;
* `improveCall` models `TextImprover.improve_text`;
* `findRefs` models `BiblicalReferenceDetector.find_references`;
* `embed` models `DuplicationDetector.get_embedding` together with the token
  charge of the embedding request.

Every oracle result additionally reports the provider token charge; a ghost
list of all charges incurred is threaded through so theorems can speak about
"the sum of the tokens of every external call made".  A call that raises at
this boundary charges nothing in the ghost list (the code never sees usage
for a raised call; in particular the provider-side cost of a classification
that is then lost to the line-100 `KeyError` is exhibited separately,
through `analyze` itself).  The history logger (lines 360-366) is file I/O
and carries no claim, so the `log_files` field is not modelled;
`cost_estimate` (line 347) is a float rounding of the token total and is
likewise not modelled. -/

/-- Python `str.strip()` (whitespace trimming at both ends). -/
def isPySpace (c : Char) : Bool :=
  c = ' ' || c = '\t' || c = '\n' || c = '\r' || c = '\x0b' || c = '\x0c'

/-- Python `str.strip()`. -/
def stripChars (t : Text) : Text :=
  ((t.dropWhile isPySpace).reverse.dropWhile isPySpace).reverse

/-- Python `text.split("但是")` (text_processor.py line 249): split on every
non-overlapping occurrence of the two-character marker, left to right. -/
def splitDanshi : Text → Text → List Text
  | acc, '但' :: '是' :: rest => acc.reverse :: splitDanshi [] rest
  | acc, c :: rest => splitDanshi (c :: acc) rest
  | acc, [] => [acc.reverse]

/-- The chunk list classified by `segment_by_emotion` (lines 74-95): the
greedy assembly of the sentence units, with the empty case replaced by the
whole text. -/
def chunksFor (splitter : Text → List Text) (text : Text) : List Text :=
  let chunks0 := assembleChunks 500 (splitter text)
  if chunks0 = [] then [text] else chunks0

/-- The classification loop of `segment_by_emotion` (lines 97-101): each
chunk is classified in order; the first raise aborts the loop, but charges of
the successful prefix have already been added to the instance counter.
Returns the emotion list (or the raised error) together with the ghost charge
list of the calls made. -/
def classifyChunks (call : Text → Except String (Emotion × Nat)) :
    List Text → Except String (List Emotion) × List Nat
  | [] => (.ok [], [])
  | c :: rest =>
    match call c with
    | .error e => (.error e, [])
    | .ok (emo, t) =>
      match classifyChunks call rest with
      | (.ok es, ts) => (.ok (emo :: es), t :: ts)
      | (.error e, ts) => (.error e, t :: ts)

/-- Outcome of one `segment_by_emotion` call: the returned
`(segments, usage["total_tokens"])` or the raised error, the
`TextSegmentProcessor.token_usage` instance counter afterwards (mutated even
when the call raises), and the ghost charge list. -/
structure SegRunOut where
  out : Except String (List Segment × Nat)
  segTokens : Nat
  charged : List Nat
deriving Repr

/-- `TextSegmentProcessor.segment_by_emotion` (text_processor.py lines
30-146) over the classification oracle: empty text returns
`{"segments": [], "usage": {"total_tokens": 0}}` (lines 41-45) without
touching the counter; otherwise the chunks are classified, the instance
counter `self.token_usage["total_tokens"]` accumulates the charges (line
101), the segments are merged, and — note — the *reported* usage is the
cumulative instance counter (line 143), not this call's tokens. -/
def segmentByEmotion (call : Text → Except String (Emotion × Nat))
    (splitter : Text → List Text) (segTokens : Nat) (text : Text) : SegRunOut :=
  if text = [] then ⟨.ok ([], 0), segTokens, []⟩
  else
    let chunks := chunksFor splitter text
    match classifyChunks call chunks with
    | (.error e, ch) => ⟨.error e, segTokens + ch.sum, ch⟩
    | (.ok emotions, ch) =>
      ⟨.ok (buildSegments chunks emotions, segTokens + ch.sum), segTokens + ch.sum, ch⟩

/-- Outcome of the partition loop of `process_text` (lines 249-261):
collected segments, the local `total_tokens` accumulator, the segment
processor's counter afterwards, and the ghost charges. -/
structure Step1Out where
  segments : List Segment
  totalTokens : Nat
  segTokens : Nat
  charged : List Nat
deriving Repr

/-- Step 1 of `process_text` (lines 249-261): each `"但是"` partition is
stripped, empty parts are skipped, and a partition whose segmentation raises
is logged and skipped (`continue`) — its surviving chunks contribute nothing
— while `total_tokens` accumulates the *reported* (cumulative) usage of each
successful partition. -/
def step1Loop (call : Text → Except String (Emotion × Nat))
    (splitter : Text → List Text) : List Text → Nat → Step1Out
  | [], segSt => ⟨[], 0, segSt, []⟩
  | p :: rest, segSt =>
    let ps := stripChars p
    if ps = [] then step1Loop call splitter rest segSt
    else
      let sr := segmentByEmotion call splitter segSt ps
      match sr.out with
      | .error _ =>
        let r := step1Loop call splitter rest sr.segTokens
        ⟨r.segments, r.totalTokens, r.segTokens, sr.charged ++ r.charged⟩
      | .ok (segs, reported) =>
        let r := step1Loop call splitter rest sr.segTokens
        ⟨segs ++ r.segments, reported + r.totalTokens, r.segTokens, sr.charged ++ r.charged⟩

/-- The JSON object `json.loads(improved_result["result"])` as read by
`process_text` (lines 296-297 and 317): the values of `improved_text` and
`changes_made` when those keys exist. -/
structure ImproveJson where
  improvedText : Option Text
  changesMade : Option (List String)
deriving DecidableEq, Repr

/-- A successful `improve_text` return: the parsed content (`none` models a
`json.loads` failure at line 296, raised *after* `improved_result` was
assigned) and the usage. -/
structure ImproveResp where
  parsed : Option ImproveJson
  usage : Usage
deriving Repr

/-- A fully processed segment (text_processor.py lines 314-319). -/
structure ProcessedSeg where
  text : Text
  emotion : Emotion
  changes : List String
  refs : List Text
deriving DecidableEq, Repr

/-- The Python locals `result_json` and `improved_result` of the step-2 loop
(`none` = still unbound; dereferencing an unbound local raises `NameError`).
Only the usage field of `improved_result` is consumed after the `try` block
(line 321). -/
structure Step2Locals where
  resultJson : Option ImproveJson
  improvedResult : Option Usage
deriving Repr

/-- One iteration of step 2 of `process_text` (lines 282-321).  The `try`
block falls back to the original text on any raise, but the subsequent dict
construction reads `result_json["changes_made"]` (line 317) and the counter
update reads `improved_result["usage"]` (line 321): when the improvement
failed these locals are unbound (`NameError`, first iteration) or stale from
the previous iteration.  Returns the processed segment, the updated locals
and the `self.token_usage` increment, or the raised error; plus the ghost
charge of the call when it returned. -/
def processSegment (improveCall : Text → ℚ → String → Except String ImproveResp)
    (findRefs : Text → List Text) (loc : Step2Locals) (seg : Segment) :
    Except String (ProcessedSeg × Step2Locals × Nat) × List Nat :=
  let references := findRefs seg.text
  -- the try/except of lines 288-304: (improved_text, result_json, improved_result)
  let tryOut : Text × Option ImproveJson × Option Usage × List Nat :=
    match improveCall seg.text seg.emotion.score seg.emotion.emotion with
    | .error _ => (seg.text, loc.resultJson, loc.improvedResult, [])
    | .ok resp =>
      match resp.parsed with
      | none => (seg.text, loc.resultJson, some resp.usage, [resp.usage.totalTokens])
      | some pj =>
        match pj.improvedText with
        | none => (seg.text, some pj, some resp.usage, [resp.usage.totalTokens])
        | some itext =>
          let final := if itext = [] ∨ (stripChars itext).length < 5 then seg.text else itext
          (final, some pj, some resp.usage, [resp.usage.totalTokens])
  let (itext, rjson, iusage, charge) := tryOut
  -- GBK passthrough of lines 306-312 (the reduced five-symbol set)
  let gbkFive : Text := ['㈠', '㈡', '㈢', '㈣', '㈤']
  let segGbk := seg.text.filter fun c => gbkFive.contains c
  let finalText := if segGbk ≠ [] then itext ++ ' ' :: segGbk else itext
  -- the dict construction of lines 314-319 and the counter update of line 321
  match rjson with
  | none => (.error "NameError: name result_json is not defined", charge)
  | some pj =>
    match pj.changesMade with
    | none => (.error "KeyError: changes_made", charge)
    | some changes =>
      match iusage with
      | none => (.error "NameError: name improved_result is not defined", charge)
      | some u =>
        (.ok (⟨finalText, seg.emotion, changes, references⟩, ⟨some pj, some u⟩, u.totalTokens),
         charge)

/-- Step 2 of `process_text` (lines 280-321): the per-segment loop, carrying
the Python locals across iterations.  Returns the processed segments (or the
first raise), the `self.token_usage` increments applied before any raise, and
the ghost charges. -/
def step2Loop (improveCall : Text → ℚ → String → Except String ImproveResp)
    (findRefs : Text → List Text) :
    List Segment → Step2Locals → Except String (List ProcessedSeg) × Nat × List Nat
  | [], _ => (.ok [], 0, [])
  | s :: rest, loc =>
    match processSegment improveCall findRefs loc s with
    | (.error e, ch) => (.error e, 0, ch)
    | (.ok (ps, loc', t), ch) =>
      match step2Loop improveCall findRefs rest loc' with
      | (.ok pss, ts, chs) => (.ok (ps :: pss), t + ts, ch ++ chs)
      | (.error e, ts, chs) => (.error e, t + ts, ch ++ chs)

/-! ## Similarity deduplication (deduplication.py) -/

/-- `np.dot` of two embedding vectors. -/
def dotProd (a b : List ℚ) : ℚ := ((a.zip b).map fun p => ratMul p.1 p.2).foldl ratAdd 0

/-- The inner loop of `find_duplicates` (deduplication.py lines 50-53): mark
every later index whose similarity to the kept index `i` exceeds the 0.85
threshold. -/
def markUsed (sim : Nat → Nat → ℚ) (i n : Nat) (used : List Nat) : List Nat :=
  used ++ ((List.range n).filter fun j => decide (i < j) && decide (mkRat 17 20 < sim i j))

/-- The greedy keep-first loop of `find_duplicates`
(deduplication.py lines 40-53): `for i in range(n)`, with the remaining
iteration count as the second argument (`fuel` starts at `n` with `i = 0`,
so `i` always stays below `n` and `getD` never falls back). -/
def fdLoop (texts : List Text) (sim : Nat → Nat → ℚ) : Nat → Nat → List Nat → List Text
  | _, 0, _ => []
  | i, fuel + 1, used =>
    if i ∈ used then fdLoop texts sim (i + 1) fuel used
    else texts.getD i [] :: fdLoop texts sim (i + 1) fuel (markUsed sim i texts.length used)

/-- `DuplicationDetector.find_duplicates` (deduplication.py lines 21-55):
embeds every segment (charging the detector's own counter, which
`process_text` never reads — the charges are reported in the ghost list),
builds the pairwise dot-product similarity, and keeps first occurrences
greedily.  Returns `(unique_segments, ghost charges)`. -/
def findDuplicates (embed : Text → List ℚ × Nat) (segments : List Text) :
    List Text × List Nat :=
  if segments = [] then ([], [])
  else
    let embs := segments.map fun s => (embed s).1
    let charges := segments.map fun s => (embed s).2
    let sim := fun i j => dotProd (embs.getD i []) (embs.getD j [])
    (fdLoop segments sim 0 segments.length [], charges)

/-- The exact-text keep-first filter of `process_text` (lines 332-337). -/
def exactDedupLoop : List ProcessedSeg → List Text → List ProcessedSeg
  | [], _ => []
  | s :: rest, seen =>
    if s.text ∈ seen then exactDedupLoop rest seen
    else s :: exactDedupLoop rest (s.text :: seen)

/-- The filtering block of step 3 of `process_text` (lines 326-341), guarded
by `isinstance(dedup_result, dict)`.  `find_duplicates` returns a Python
*list*, so at the call site the guard is `false` and the block is skipped;
the parameter keeps the source branch visible.  When the branch does run, the
exact-text filter is applied, `processed_segments` is *reassigned* to
`unique_segments` (line 338), and `unique_segments` becomes bound.  The
similarity-filtered list returned by `find_duplicates` is not consulted in
either case, and the usage lookup `getattr(dedup_result, "usage", ...)`
(line 327) finds no such attribute on a list or dict, so no tokens are ever
added here. -/
def dedupFilterBlock (processed : List ProcessedSeg) (dedupResultIsDict : Bool) :
    List ProcessedSeg × Option (List ProcessedSeg) :=
  if dedupResultIsDict then
    let unique := exactDedupLoop processed []
    (unique, some unique)
  else (processed, none)

/-- `summary["has_duplicates"]` (line 373):
`len(unique_segments) < len(processed_segments) if 'unique_segments' in
locals() else False`, evaluated after the reassignment of
`processed_segments`. -/
def hasDuplicatesFlag (processedAfter : List ProcessedSeg)
    (uniqueLocal : Option (List ProcessedSeg)) : Bool :=
  match uniqueLocal with
  | some u => decide (u.length < processedAfter.length)
  | none => false

/-! ## `TextProcessor.process_text` -/

/-- The usage dictionary of the returned result (lines 351-357), without the
constant model name and the float `cost_estimate`. -/
structure UsageOut where
  totalTokens : Nat
  textLength : Nat
  segmentCount : Nat
deriving DecidableEq, Repr

/-- `result["summary"]` (lines 369-375), without the constant
`processing_status`. -/
structure Summary where
  originalLength : Nat
  processedLength : Nat
  segmentCount : Nat
  hasDuplicates : Bool
deriving DecidableEq, Repr

/-- The returned result.  The early return for falsy input (lines 198-208)
carries no summary, hence the `Option`. -/
structure ProcessResult where
  segments : List ProcessedSeg
  usage : UsageOut
  summary : Option Summary
deriving DecidableEq, Repr

/-- The mutable instance counters of a `TextProcessor`:
`self.segment_processor.token_usage["total_tokens"]` and
`self.token_usage["total_tokens"]`.  Both are created in `__init__` and never
reset, so they persist across `process_text` invocations on the same
instance. -/
structure PState where
  segTokens : Nat
  procTokens : Nat
deriving DecidableEq, Repr

/-- The external-call oracles of one pipeline run. -/
structure Oracles where
  emotionCall : Text → Except String (Emotion × Nat)
  splitter : Text → List Text
  improveCall : Text → ℚ → String → Except String ImproveResp
  findRefs : Text → List Text
  embed : Text → List ℚ × Nat

/-- Outcome of `process_text`: the returned result or the raised error, the
instance counters afterwards, and the ghost list of every external call's
token charge. -/
structure ProcOut where
  res : Except String ProcessResult
  st : PState
  charged : List Nat
deriving Repr

/-- `TextProcessor.process_text` (text_processor.py lines 189-378).  Falsy
input returns the empty result (lines 198-208) before any validation or
external call; normalization never raises on valid Unicode; text shorter
than 10 characters after trimming raises (lines 243-245); step 1 splits on
the literal `"但是"`, segments each partition and raises when no partition
produced segments (lines 247-278); step 2 improves each segment (lines
280-321); step 3 calls `find_duplicates` but discards its return value — the
`isinstance(dedup_result, dict)` guard is `false` for the returned list, so
neither the similarity filter nor the exact-text filter is applied (lines
323-344); the reported usage total is the instance counter (line 352). -/
def processText (O : Oracles) (st : PState) (text : Text) : ProcOut :=
  if text = [] then
    ⟨.ok ⟨[], ⟨0, 0, 0⟩, none⟩, st, []⟩
  else
    let t := normalizeText text
    if (stripChars t).length < 10 then
      ⟨.error "文本长度必须大于10个字符", st, []⟩
    else
      let parts := splitDanshi [] t
      let s1 := step1Loop O.emotionCall O.splitter parts st.segTokens
      if s1.segments = [] then
        ⟨.error "文本处理失败：无法生成有效的文本段落", ⟨s1.segTokens, st.procTokens⟩, s1.charged⟩
      else
        let procT1 := st.procTokens + s1.totalTokens
        match step2Loop O.improveCall O.findRefs s1.segments ⟨none, none⟩ with
        | (.error e, t2, ch2) =>
          ⟨.error e, ⟨s1.segTokens, procT1 + t2⟩, s1.charged ++ ch2⟩
        | (.ok pss, t2, ch2) =>
          let procT2 := procT1 + t2
          let dedupAndCharges := findDuplicates O.embed (pss.map (·.text))
          -- dedup_result (the similarity-filtered list) is discarded here;
          -- isinstance(dedup_result, dict) is false, so the block is skipped
          let (processedFinal, uniqueLocal) := dedupFilterBlock pss false
          let summary : Summary :=
            ⟨t.length, (processedFinal.map fun s => s.text.length).sum, processedFinal.length,
             hasDuplicatesFlag processedFinal uniqueLocal⟩
          ⟨.ok ⟨processedFinal, ⟨procT2, t.length, processedFinal.length⟩, some summary⟩,
           ⟨s1.segTokens, procT2⟩, s1.charged ++ ch2 ++ dedupAndCharges.2⟩

/-- The texts of the returned segments, when the run returned. -/
def resSegTexts (p : ProcOut) : Option (List Text) :=
  match p.res with
  | .ok r => some (r.segments.map fun s => s.text)
  | .error _ => none

/-- The reported `usage["total_tokens"]`, when the run returned. -/
def resTotalTokens (p : ProcOut) : Option Nat :=
  match p.res with
  | .ok r => some r.usage.totalTokens
  | .error _ => none

/-- The raised error message, when the run raised. -/
def resErrMsg (p : ProcOut) : Option String :=
  match p.res with
  | .ok _ => none
  | .error e => some e

/-! ## Concrete scenarios used by the theorems below -/

-- Concrete provider contents for the analyzer (C5 and the true-boundary
-- oracles).
def unknownRaw : RawContent := ⟨true, true, true, true, "unknown", some 3⟩

def goodRaw : RawContent := ⟨true, true, true, true, "喜悦", some 4⟩

def goodResp : Nat → Option (RawContent × Usage) := fun _ => some (goodRaw, ⟨7, 3, 10⟩)

/-- A fixed classification used by concrete runs. -/
def demoEmotion : Emotion := ⟨"喜悦", 4⟩

/-- A *counterfactual* classification oracle granting the successful
consumption the code intends at text_processor.py lines 99-101.  The
program's true boundary behavior always raises (`emotionCallOfAnalyze`
above), so this oracle is used only to instantiate oracle-quantified
conditional theorems and scenarios that never reach an emotion call — never
to assert concrete program behavior on the classification path. -/
def demoEmotionCall : Text → Except String (Emotion × Nat) :=
  fun _ => .ok (demoEmotion, 10)

/-- A sentence splitter returning the whole partition as one unit; this is
also the regex splitter's behavior (lines 52-72) on any text without the
split punctuation and without transition markers, which all inputs below
are. -/
def demoSplitter : Text → List Text := fun t => [t]

/-- An improvement oracle that returns the input text unchanged with an
empty change list, charging 5 tokens. -/
def demoImprove : Text → ℚ → String → Except String ImproveResp :=
  fun t _ _ => .ok ⟨some ⟨some t, some []⟩, ⟨3, 2, 5⟩⟩

/-- A reference detector finding nothing. -/
def demoRefs : Text → List Text := fun _ => []

/-- An embedding oracle with a constant vector, charging 7 tokens. -/
def demoEmbed : Text → List ℚ × Nat := fun _ => ([0], 7)

/-- The counterfactual oracle bundle (see `demoEmotionCall`). -/
def demoO : Oracles := ⟨demoEmotionCall, demoSplitter, demoImprove, demoRefs, demoEmbed⟩

/-- A ten-character single-partition input. -/
def demoText10 : Text := "天天天天天天天天天天".toList

/-- A constant small token estimate (no chunk exceeds the budget). -/
def demoEst : Text → Nat := fun _ => 100

/-- The primary provider always answers with the well-formed 喜悦/4 content,
10 total tokens per call. -/
def demoResp : Text → Nat → Option (RawContent × Usage) :=
  fun _ _ => some (goodRaw, ⟨7, 3, 10⟩)

/-- The program's true emotion-call behavior under a well-behaved provider:
`analyze` classifies successfully, then the line-100 `result["result"]` read
raises `KeyError`. -/
def trueEmotionCall : Text → Except String (Emotion × Nat) :=
  emotionCallOfAnalyze demoEst demoResp

/-- The oracle bundle with the program's true emotion-call behavior. -/
def trueO : Oracles := ⟨trueEmotionCall, demoSplitter, demoImprove, demoRefs, demoEmbed⟩

-- Scenario with two near-identical would-be segments (C1): the input splits
-- at "但是" into two marker-free, punctuation-free partitions.
def pX1 : Text := "高高兴兴笑".toList

def pY1 : Text := "伤伤心心哭".toList

def input1 : Text := pX1 ++ ('但' :: '是' :: pY1)

/-- The doubled partition texts that the intended pipeline would produce as
segment texts (the duplicated-flush assembler doubles each partition). -/
def tA1 : Text := pX1 ++ pX1

def tB1 : Text := pY1 ++ pY1

/-- Embeddings giving the two near-identical texts a dot product of 0.95. -/
def embed1 : Text → List ℚ × Nat :=
  fun t => if t = tA1 then ([1], 7) else if t = tB1 then ([mkRat 19 20], 7) else ([0], 7)

-- Scenario with two partitions for the usage accounting (C2).
def p21 : Text := "第一段话很开心".toList

def p22 : Text := "第二段话很难过".toList

def input2 : Text := p21 ++ ('但' :: '是' :: p22)

-- Scenarios for the rewriter-failure handler (C3): the step-2 loop is
-- exercised directly on segment lists, since no run of the program reaches
-- it.
def improveFail : Text → ℚ → String → Except String ImproveResp :=
  fun _ _ _ => .error "Error improving text: boom"

def input3 : Text := "哈哈哈哈哈哈哈哈哈哈".toList

def q31 : Text := "前半段很高兴".toList

def q32 : Text := "后半段很难过".toList

def t31 : Text := q31 ++ q31

def t32 : Text := q32 ++ q32

/-- Improvement succeeds (with one recorded change) on the text `t31` and
raises on every other text. -/
def improve1 : Text → ℚ → String → Except String ImproveResp :=
  fun t _ _ =>
    if t = t31 then .ok ⟨some ⟨some t, some ["修正了错别字"]⟩, ⟨3, 2, 5⟩⟩
    else .error "Error improving text: boom"

-- Scenario for the oversized-chunk behaviour (C7): partition A is
-- 'a'*300 ++ '，' ++ 'b'*300 ++ '，' ++ 'c'*300, so the regex splitter
-- (which captures the separator runs as their own units) yields
-- [s71, '，', s72, '，', s73] and the assembler packs them into the chunks
-- [s71 ++ '，', s72 ++ '，', s73, s73] (the last flushed twice); only the
-- chunk containing 'b' exceeds the token budget.
def s71 : Text := List.replicate 300 'a'

def s72 : Text := List.replicate 300 'b'

def s73 : Text := List.replicate 300 'c'

def partA7 : Text := s71 ++ '，' :: (s72 ++ '，' :: s73)

def partB7 : Text := List.replicate 20 'd'

def input7 : Text := partA7 ++ ('但' :: '是' :: partB7)

/-- Token estimate: only texts containing 'b' exceed the budget. -/
def est7 : Text → Nat := fun t => if t.contains 'b' then 20000 else 100

/-- The sentence splitter's output on this scenario's two partitions,
hand-checked against the regex split of lines 52-72: `partA7` splits at the
two captured '，' runs into five units and contains no transition marker;
`partB7` has no split punctuation and no marker, so it stays whole. -/
def splitterC7 : Text → List Text :=
  fun t => if t = partA7 then [s71, ['，'], s72, ['，'], s73] else [t]

/-- The C7 oracle bundle: the true emotion-call behavior derived from
`analyze` under the `est7` token estimate. -/
def O7 : Oracles :=
  ⟨emotionCallOfAnalyze est7 demoResp, splitterC7, demoImprove, demoRefs, demoEmbed⟩

/-! ## Helper lemmas -/

/-- `ratSub` is subtraction on `ℚ`. -/
theorem ratSub_eq (a b : ℚ) : ratSub a b = a - b := by
  unfold ratSub
  rw [Rat.mkRat_eq_div]
  conv_rhs => rw [← Rat.num_div_den a, ← Rat.num_div_den b]
  push_cast
  rw [div_sub_div _ _ (by positivity) (by positivity)]
  ring_nf

/-- `ratMul` is multiplication on `ℚ`. -/
theorem ratMul_eq (a b : ℚ) : ratMul a b = a * b := by
  unfold ratMul
  rw [Rat.mkRat_eq_div]
  conv_rhs => rw [← Rat.num_div_den a, ← Rat.num_div_den b]
  push_cast
  rw [div_mul_div_comm]

/-- `ratAdd` is addition on `ℚ`. -/
theorem ratAdd_eq (a b : ℚ) : ratAdd a b = a + b := by
  unfold ratAdd
  rw [Rat.mkRat_eq_div]
  conv_rhs => rw [← Rat.num_div_den a, ← Rat.num_div_den b]
  push_cast
  rw [div_add_div _ _ (by positivity) (by positivity)]
  ring_nf

/-- `ratAbs` is the absolute value on `ℚ`. -/
theorem ratAbs_eq (q : ℚ) : ratAbs q = |q| := by
  unfold ratAbs
  split_ifs with h
  · rw [Rat.mkRat_eq_div, abs_of_neg]
    · push_cast
      rw [neg_div, Rat.num_div_den]
    · rw [← Rat.num_neg]
      exact h
  · rw [abs_of_nonneg]
    rw [← Rat.num_nonneg]
    omega

/-- `List.lookup` only returns values present in the association list. -/
theorem lookup_mem {α β : Type} [BEq α] {a : α} {b : β} :
    ∀ {l : List (α × β)}, l.lookup a = some b → ∃ k, (k, b) ∈ l ∧ (a == k) = true
  | [], h => by simp [List.lookup] at h
  | (k, v) :: l, h => by
    by_cases hak : (a == k) = true
    · refine ⟨k, ?_, hak⟩
      simp [List.lookup, hak] at h
      simp [h]
    · simp [List.lookup, hak] at h
      obtain ⟨k', hk', hak'⟩ := lookup_mem h
      exact ⟨k', List.mem_cons_of_mem _ hk', hak'⟩

/-- Every simplified character produced by the substitution table is itself a
fixed point of `normalizeChar`. -/
theorem tradSimp_snd_fixed : ∀ p ∈ tradSimpPairs, normalizeChar p.2 = p.2 := by
  decide

/-- A character in the GBK passthrough set is left unchanged. -/
theorem normalizeChar_gbk {c : Char} (h : gbkSpecificChars.contains c = true) :
    normalizeChar c = c := by
  unfold normalizeChar
  have hm : c ∈ gbkSpecificChars := by simpa using h
  simp [hm]

/-- `normalizeChar` is idempotent. -/
theorem normalizeChar_idem (c : Char) : normalizeChar (normalizeChar c) = normalizeChar c := by
  by_cases hg : gbkSpecificChars.contains c = true
  · rw [normalizeChar_gbk hg, normalizeChar_gbk hg]
  · have hm : c ∉ gbkSpecificChars := by simpa using hg
    cases hl : tradSimpPairs.lookup c with
    | none =>
      have hc : normalizeChar c = c := by
        unfold normalizeChar
        simp [hm, hl]
      rw [hc, hc]
    | some s =>
      have hc : normalizeChar c = s := by
        unfold normalizeChar
        simp [hm, hl]
      obtain ⟨k, hk, _⟩ := lookup_mem hl
      have hfix := tradSimp_snd_fixed (k, s) hk
      rw [hc, hfix]

/-- The merge loop is the reference segmenter run after the accumulator,
provided the running segment text never becomes empty. -/
theorem segLoop_eq_groupByEmotion :
    ∀ (l : List (Text × Emotion)) (cur : Text) (curE : Emotion) (acc : List Segment),
      cur ≠ [] → (∀ p ∈ l, p.1 ≠ []) →
      segLoop cur curE acc l = acc ++ groupByEmotion cur curE l
  | [], cur, curE, acc, hcur, _ => by
    simp [segLoop, groupByEmotion, hcur]
  | (c, e) :: rest, cur, curE, acc, hcur, hl => by
    have hc : c ≠ [] := hl (c, e) (List.mem_cons_self _ _)
    have hrest : ∀ p ∈ rest, p.1 ≠ [] := fun p hp => hl p (List.mem_cons_of_mem _ hp)
    by_cases hb : mergeBreak curE e c = true
    · rw [segLoop, if_pos hb, groupByEmotion, if_pos hb,
        segLoop_eq_groupByEmotion rest c e _ hc hrest, List.append_assoc]
      rfl
    · have hcur' : cur ++ c ≠ [] := fun h => hcur (List.append_eq_nil.mp h).1
      rw [segLoop, if_neg hb, groupByEmotion, if_neg hb,
        segLoop_eq_groupByEmotion rest (cur ++ c) curE _ hcur' hrest]

/-- A success of `retry_with_timeout` comes from a successful attempt. -/
theorem retryWithTimeout_inl {α : Type} {f : Nat → Except String α} {a : α} :
    ∀ {i fuel : Nat}, retryWithTimeout f i fuel = .inl a → ∃ n, f n = .ok a := by
  intro i fuel
  induction fuel generalizing i with
  | zero => intro h; simp [retryWithTimeout] at h
  | succ m ih =>
    intro h
    unfold retryWithTimeout at h
    cases hf : f i with
    | ok b =>
      rw [hf] at h
      simp at h
      exact ⟨i, by rw [hf, h]⟩
    | error e =>
      rw [hf] at h
      simp at h
      split at h
      · simp at h
      · exact ih h

/-- A classification accepted by the validation of `_make_openai_call` has a
label inside the closed set and is not the `"unknown"` sentinel. -/
theorem validateContent_ok_label {rc : RawContent} {e : Emotion}
    (h : validateContent rc = .ok e) :
    validEmotions.contains e.emotion = true ∧ e.emotion ≠ "unknown" := by
  unfold validateContent at h
  split_ifs at h with h1 h2 h3 h4 h5
  · cases hs : rc.scoreVal with
    | none => rw [hs] at h; cases h
    | some q =>
      rw [hs] at h
      dsimp only at h
      split_ifs at h with h6
      · cases h
        constructor
        · cases hcv : validEmotions.contains rc.emotionVal with
          | false => exact absurd hcv h5
          | true => exact rfl
        · exact h4

/-- The program's emotion call never succeeds: whatever `analyze` returns,
the `result["result"]` read raises, and a raise of `analyze` propagates. -/
theorem emotionCallOfAnalyze_isErr (est : Text → Nat)
    (resp : Text → Nat → Option (RawContent × Usage)) (chunk : Text) :
    isErr (emotionCallOfAnalyze est resp chunk) = true := by
  unfold emotionCallOfAnalyze
  cases analyze (est chunk) (resp chunk) with
  | error e => rfl
  | ok r => cases r <;> rfl

/-- When every emotion call raises, the classification loop of
`segment_by_emotion` raises on any non-empty chunk list. -/
theorem classifyChunks_err_of_call_err {call : Text → Except String (Emotion × Nat)}
    (hcall : ∀ c, isErr (call c) = true) (c : Text) (rest : List Text) :
    isErr (classifyChunks call (c :: rest)).1 = true := by
  unfold classifyChunks
  cases hc : call c with
  | error e => simp [isErr]
  | ok p =>
    have hcc := hcall c
    rw [hc] at hcc
    simp [isErr] at hcc

/-- The chunk list classified by `segment_by_emotion` is never empty
(lines 94-95 replace an empty assembly by the one-element list `[text]`). -/
theorem chunksFor_ne_nil (splitter : Text → List Text) (text : Text) :
    chunksFor splitter text ≠ [] := by
  unfold chunksFor
  dsimp only
  split_ifs with h0
  · simp
  · exact h0

/-- When every emotion call raises, `segment_by_emotion` raises on every
non-empty text. -/
theorem segmentByEmotion_err_of_call_err {call : Text → Except String (Emotion × Nat)}
    (hcall : ∀ c, isErr (call c) = true) (splitter : Text → List Text)
    (segSt : Nat) (text : Text) (h : text ≠ []) :
    isErr (segmentByEmotion call splitter segSt text).out = true := by
  simp only [segmentByEmotion, if_neg h]
  obtain ⟨c, rest, hcr⟩ : ∃ c rest, chunksFor splitter text = c :: rest := by
    cases hch : chunksFor splitter text with
    | nil => exact absurd hch (chunksFor_ne_nil splitter text)
    | cons a b => exact ⟨a, b, rfl⟩
  rw [hcr]
  have herr := classifyChunks_err_of_call_err hcall c rest
  cases hres : classifyChunks call (c :: rest) with
  | mk res ch =>
    rw [hres] at herr
    cases res with
    | ok es => simp [isErr] at herr
    | error e => simp [isErr]

/-- When every emotion call raises, every partition of step 1 is skipped and
no segments are collected. -/
theorem step1Loop_segments_nil_of_call_err {call : Text → Except String (Emotion × Nat)}
    (hcall : ∀ c, isErr (call c) = true) (splitter : Text → List Text) :
    ∀ (parts : List Text) (segSt : Nat), (step1Loop call splitter parts segSt).segments = []
  | [], _ => rfl
  | p :: rest, segSt => by
    by_cases hps : stripChars p = []
    · simp only [step1Loop, if_pos hps]
      exact step1Loop_segments_nil_of_call_err hcall splitter rest segSt
    · simp only [step1Loop, if_neg hps]
      cases hout : (segmentByEmotion call splitter segSt (stripChars p)).out with
      | ok v =>
        have herr := segmentByEmotion_err_of_call_err hcall splitter segSt (stripChars p) hps
        rw [hout] at herr
        simp [isErr] at herr
      | error e =>
        simp only [hout]
        exact step1Loop_segments_nil_of_call_err hcall splitter rest _

/-- When every emotion call raises, `process_text` raises its step-1
ValueError on every input that passes validation. -/
theorem processText_raises_of_call_err {O : Oracles}
    (hcall : ∀ c, isErr (O.emotionCall c) = true) (st : PState) (text : Text)
    (h1 : text ≠ []) (h2 : ¬ (stripChars (normalizeText text)).length < 10) :
    resErrMsg (processText O st text) = some "文本处理失败：无法生成有效的文本段落" := by
  have hnil := step1Loop_segments_nil_of_call_err hcall O.splitter
    (splitDanshi [] (normalizeText text)) st.segTokens
  simp only [processText, if_neg h1, if_neg h2, if_pos hnil]
  rfl

/-! ## The claims -/

/-- C9: the traditional-to-simplified normalization with GBK passthrough of
`process_text` is idempotent: `normalize(normalize(t)) = normalize(t)` for
every valid-Unicode input. -/
theorem C9_normalize_idempotent : ∀ t : Text, normalizeText (normalizeText t) = normalizeText t := by
  intro t
  unfold normalizeText
  rw [List.map_map]
  exact List.map_congr_left fun c _ => normalizeChar_idem c

/-- C4: the merge loop of `segment_by_emotion` coincides with the reference
segmenter `groupByEmotion`: a new segment is opened at a chunk exactly when
`mergeBreak` holds between the running segment's emotion (always the emotion
of the first chunk of the current group) and the chunk's emotion, otherwise
the chunk text is appended without re-classification, and the final open
segment is always emitted.  The hypothesis that all chunk texts are non-empty
is guaranteed at the call site: every chunk produced by `assembleChunks` is
flushed under an `if current_chunk:` guard, and the `[text]` fallback uses a
non-empty text. -/
theorem C4_segmenter_merge_rule (c0 : Text) (e0 : Emotion) (ctl : List Text)
    (etl : List Emotion) (hne : ∀ c ∈ c0 :: ctl, c ≠ []) :
    buildSegments (c0 :: ctl) (e0 :: etl) = groupByEmotion c0 e0 (ctl.zip etl) := by
  have h0 : c0 ≠ [] := hne c0 (List.mem_cons_self _ _)
  have hl : ∀ p ∈ ctl.zip etl, p.1 ≠ [] := by
    intro p hp
    exact hne p.1 (List.mem_cons_of_mem _ (List.of_mem_zip hp).1)
  simpa [buildSegments] using segLoop_eq_groupByEmotion (ctl.zip etl) c0 e0 [] h0 hl

/-- Witness for C4 at a concrete two-chunk instance: the transition marker
"但是" inside the second chunk forces a break, giving two segments, each
carrying its seeding chunk's emotion. -/
theorem C4_segmenter_merge_rule_witness :
    (∀ c ∈ ["今天开心".toList, "但是难过".toList], c ≠ ([] : Text)) ∧
    buildSegments ["今天开心".toList, "但是难过".toList] [⟨"喜悦", 4⟩, ⟨"悲伤", 1⟩] =
      groupByEmotion "今天开心".toList ⟨"喜悦", 4⟩ [("但是难过".toList, ⟨"悲伤", 1⟩)] :=
  ⟨by decide, C4_segmenter_merge_rule _ _ _ _ (by decide)⟩

/-- C6: the chunk assembler appends the final open chunk twice (the flush
block is duplicated at text_processor.py lines 87-89 and 91-92), so a single
sentence unit is placed in two chunks and the concatenation of all chunks
does not reconstruct the concatenation of the units. -/
theorem C6_last_chunk_duplicated :
    assembleChunks 500 ["你好啊".toList] = ["你好啊".toList, "你好啊".toList] ∧
    (assembleChunks 500 ["你好啊".toList]).flatten ≠ ["你好啊".toList].flatten := by
  decide

/-- C5 (counterexample): the fallback path `_make_deepseek_call` performs no
label validation — a provider response whose label is the sentinel
`"unknown"` (outside the closed nine-label set) is returned as a
classification result, contradicting the claim that results of the fallback
path always carry a label from the closed set and that `"unknown"` is never
returned. -/
theorem C5_counterexample_fallback_unvalidated :
    makeDeepseekCall 200 (some unknownRaw) ⟨5, 5, 10⟩ = .ok (unknownRaw, ⟨5, 5, 10⟩) ∧
    validEmotions.contains unknownRaw.emotionVal = false :=
  ⟨rfl, by decide⟩

/-- C5 (amended): every classification `analyze` returns — necessarily via
the primary provider path, because the retry wrapper returns its
final-failure dictionary instead of raising, so a validation failure yields
an error-dictionary return rather than triggering the fallback — has a label
inside the closed nine-label set and is never `"unknown"`; the fallback
helper `_make_deepseek_call`, by contrast, returns the parsed provider
content verbatim, without validating its label. -/
theorem C5_label_validation_amended :
    (∀ (est : Nat) (resp : Nat → Option (RawContent × Usage)) (e : Emotion) (u : Usage),
        analyze est resp = .ok (.classified e u) →
        validEmotions.contains e.emotion = true ∧ e.emotion ≠ "unknown") ∧
    (∀ (status : Nat) (rc : RawContent) (u : Usage) (out : RawContent × Usage),
        makeDeepseekCall status (some rc) u = .ok out → out.1 = rc) := by
  constructor
  · intro est resp e u h
    unfold analyze at h
    split_ifs at h
    cases hr : retryWithTimeout (fun i => makeOpenaiCall (resp i)) 0 MAX_RETRIES with
    | inr msg => rw [hr] at h; cases h
    | inl p =>
      rw [hr] at h
      obtain ⟨e', u'⟩ := p
      dsimp only at h
      cases h
      obtain ⟨n, hn⟩ := retryWithTimeout_inl hr
      unfold makeOpenaiCall at hn
      cases hresp : resp n with
      | none => rw [hresp] at hn; cases hn
      | some p' =>
        obtain ⟨rc, u''⟩ := p'
        rw [hresp] at hn
        dsimp only at hn
        cases hv : validateContent rc with
        | error msg => rw [hv] at hn; cases hn
        | ok ev =>
          rw [hv] at hn
          cases hn
          exact validateContent_ok_label hv
  · intro status rc u out h
    unfold makeDeepseekCall at h
    split_ifs at h
    dsimp only at h
    split_ifs at h
    cases h
    rfl

/-- Witness for C5 at concrete inputs: a well-formed primary response with
label 喜悦 is accepted and the theorem yields its membership in the closed
set; the fallback returns its content verbatim. -/
theorem C5_label_validation_amended_witness :
    (validEmotions.contains (Emotion.emotion ⟨"喜悦", 4⟩) = true ∧
      Emotion.emotion ⟨"喜悦", 4⟩ ≠ "unknown") ∧
    ((goodRaw, (⟨7, 3, 10⟩ : Usage)) : RawContent × Usage).1 = goodRaw :=
  ⟨C5_label_validation_amended.1 100 goodResp ⟨"喜悦", 4⟩ ⟨7, 3, 10⟩ rfl,
   C5_label_validation_amended.2 200 goodRaw ⟨7, 3, 10⟩ (goodRaw, ⟨7, 3, 10⟩) rfl⟩

/-- C8 (counterexample): empty input does not raise a validation error —
`process_text` returns a structured empty result (text_processor.py lines
198-208), contradicting the claim that empty input raises immediately and
returns no result. -/
theorem C8_counterexample_empty_input_returns :
    processText demoO ⟨0, 0⟩ [] = ⟨.ok ⟨[], ⟨0, 0, 0⟩, none⟩, ⟨0, 0⟩, []⟩ :=
  rfl

/-- C8 (amended): falsy input returns the empty result immediately, with the
instance counters untouched and no external call made (empty charge list);
non-empty input whose trimmed normalization is shorter than 10 characters
raises a ValueError immediately, also with no external call and no partial
result.  (A truthy non-string argument raises a TypeError-style ValueError in
the source; values of other types are outside this typed model.) -/
theorem C8_validation_amended :
    (∀ (O : Oracles) (st : PState),
        processText O st [] = ⟨.ok ⟨[], ⟨0, 0, 0⟩, none⟩, st, []⟩) ∧
    (∀ (O : Oracles) (st : PState) (text : Text), text ≠ [] →
        (stripChars (normalizeText text)).length < 10 →
        processText O st text = ⟨.error "文本长度必须大于10个字符", st, []⟩) := by
  constructor
  · intro O st
    rfl
  · intro O st text h1 h2
    simp [processText, h1, h2]

/-- Witness for C8 at concrete inputs: the empty input and the
three-character input 你好吗. -/
theorem C8_validation_amended_witness :
    processText demoO ⟨1, 2⟩ [] = ⟨.ok ⟨[], ⟨0, 0, 0⟩, none⟩, ⟨1, 2⟩, []⟩ ∧
    processText demoO ⟨0, 0⟩ "你好吗".toList = ⟨.error "文本长度必须大于10个字符", ⟨0, 0⟩, []⟩ :=
  ⟨C8_validation_amended.1 demoO ⟨1, 2⟩,
   C8_validation_amended.2 demoO ⟨0, 0⟩ "你好吗".toList (by decide) (by decide)⟩

/-- C7 (counterexample): a run realizing the claim's premise — the first
partition packs into the chunks `[s71 ++ '，', s72 ++ '，', s73, s73]`, of
which exactly the one containing 'b' exceeds the token budget — and
violating its conclusion: the sibling chunks do not contribute any segment,
because `process_text` aborts the whole run with its step-1 ValueError (each
partition independently dies at its first chunk: the first read of
`result["result"]` raises `KeyError` before the oversized chunk is even
reached, and no partition survives). -/
theorem C7_counterexample_partition_dropped :
    chunksFor splitterC7 partA7 = [s71 ++ ['，'], s72 ++ ['，'], s73, s73] ∧
    (MAX_TOKENS < est7 (s72 ++ ['，']) ∧ est7 (s71 ++ ['，']) ≤ MAX_TOKENS ∧
      est7 s73 ≤ MAX_TOKENS) ∧
    resErrMsg (processText O7 ⟨0, 0⟩ input7) = some "文本处理失败：无法生成有效的文本段落" := by
  refine ⟨by decide, ⟨by decide, by decide, by decide⟩, by decide⟩

/-- C7 (amended): there is no per-chunk skip.  (i) A partition whose
segmentation raises is skipped whole by `process_text` — it contributes no
segments and processing continues with the remaining partitions (the
per-partition `continue` of lines 255-261).  (ii) A chunk whose estimated
token count exceeds `MAX_TOKENS` makes `analyze` raise its token-budget
error, which can only be contained at that partition level.  (iii) In the
current program no chunk ever contributes segments regardless: the
`result["result"]` read of line 100 raises `KeyError` for every `analyze`
return, so each partition fails at its first chunk and every input that
passes validation makes `process_text` raise ValueError instead of returning
a degraded result. -/
theorem C7_partition_skip_amended :
    (∀ (call : Text → Except String (Emotion × Nat)) (splitter : Text → List Text)
        (segSt : Nat) (p : Text) (rest : List Text),
        isErr (segmentByEmotion call splitter segSt (stripChars p)).out = true →
        (step1Loop call splitter (p :: rest) segSt).segments =
          (step1Loop call splitter rest
            (segmentByEmotion call splitter segSt (stripChars p)).segTokens).segments) ∧
    (∀ (estTokens : Nat) (resp : Nat → Option (RawContent × Usage)),
        MAX_TOKENS < estTokens →
        analyze estTokens resp = .error "Error analyzing emotion: Text too long") ∧
    (∀ (O : Oracles) (est : Text → Nat) (resp : Text → Nat → Option (RawContent × Usage))
        (st : PState) (text : Text),
        O.emotionCall = emotionCallOfAnalyze est resp → text ≠ [] →
        ¬ (stripChars (normalizeText text)).length < 10 →
        resErrMsg (processText O st text) = some "文本处理失败：无法生成有效的文本段落") := by
  refine ⟨?_, ?_, ?_⟩
  · intro call splitter segSt p rest herr
    by_cases hps : stripChars p = []
    · rw [hps] at herr
      simp [segmentByEmotion, isErr] at herr
    · cases hout : (segmentByEmotion call splitter segSt (stripChars p)).out with
      | ok v => rw [hout] at herr; simp [isErr] at herr
      | error e => simp only [step1Loop, if_neg hps, hout]
  · intro estTokens resp hover
    unfold analyze
    rw [if_pos hover]
  · intro O est resp st text hO h1 h2
    refine processText_raises_of_call_err ?_ st text h1 h2
    intro c
    rw [hO]
    exact emotionCallOfAnalyze_isErr est resp c

/-- Witness for C7 at the concrete oversized-chunk scenario: the erroring
partition is skipped in the step-1 loop; the oversized chunk's `analyze`
call raises; and the concrete run with the program's true emotion-call
behavior raises the step-1 ValueError. -/
theorem C7_partition_skip_amended_witness :
    (step1Loop (emotionCallOfAnalyze est7 demoResp) splitterC7 [partA7, partB7] 0).segments =
      (step1Loop (emotionCallOfAnalyze est7 demoResp) splitterC7 [partB7]
        (segmentByEmotion (emotionCallOfAnalyze est7 demoResp) splitterC7 0
          (stripChars partA7)).segTokens).segments ∧
    analyze 20000 goodResp = .error "Error analyzing emotion: Text too long" ∧
    resErrMsg (processText trueO ⟨0, 0⟩ demoText10) = some "文本处理失败：无法生成有效的文本段落" :=
  ⟨C7_partition_skip_amended.1 (emotionCallOfAnalyze est7 demoResp) splitterC7 0 partA7
     [partB7] (by decide),
   C7_partition_skip_amended.2.1 20000 goodResp (by decide),
   C7_partition_skip_amended.2.2 trueO demoEst demoResp ⟨0, 0⟩ demoText10 rfl (by decide)
     (by decide)⟩

/-- C10: the `has_duplicates` field of a successfully returned summary is
always `false`: `find_duplicates` returns a list, so the
`isinstance(dedup_result, dict)` guard skips the filtering block and
`unique_segments` stays unbound; and even when the block runs, the comparison
`len(unique_segments) < len(processed_segments)` is evaluated only after
`processed_segments` was reassigned to `unique_segments`, so it compares a
list with itself. -/
theorem C10_has_duplicates_always_false :
    (∀ (O : Oracles) (st : PState) (text : Text) (r : ProcessResult),
        (processText O st text).res = .ok r →
        ∀ s, r.summary = some s → s.hasDuplicates = false) ∧
    (∀ (p : List ProcessedSeg) (b : Bool),
        hasDuplicatesFlag (dedupFilterBlock p b).1 (dedupFilterBlock p b).2 = false) := by
  constructor
  · intro O st text r hr s hs
    unfold processText at hr
    by_cases h1 : text = []
    · rw [if_pos h1] at hr
      dsimp only at hr
      cases hr
      cases hs
    · rw [if_neg h1] at hr
      dsimp only at hr
      by_cases h2 : (stripChars (normalizeText text)).length < 10
      · rw [if_pos h2] at hr
        cases hr
      · rw [if_neg h2] at hr
        by_cases h3 : (step1Loop O.emotionCall O.splitter (splitDanshi [] (normalizeText text))
            st.segTokens).segments = []
        · rw [if_pos h3] at hr
          cases hr
        · rw [if_neg h3] at hr
          cases hstep : step2Loop O.improveCall O.findRefs
              (step1Loop O.emotionCall O.splitter (splitDanshi [] (normalizeText text))
                st.segTokens).segments ⟨none, none⟩ with
          | mk res2 rest2 =>
            cases rest2 with
            | mk t2 ch2 =>
              rw [hstep] at hr
              cases res2 with
              | error e => cases hr
              | ok pss =>
                simp only [dedupFilterBlock, Bool.false_eq_true, if_false] at hr
                cases hr
                cases hs
                rfl
  · intro p b
    cases b with
    | false => rfl
    | true => simp [dedupFilterBlock, hasDuplicatesFlag]

/-- Witness for C10 at a concrete successful run of the pipeline. -/
theorem C10_has_duplicates_always_false_witness :
    Summary.hasDuplicates ⟨10, 20, 1, false⟩ = false :=
  C10_has_duplicates_always_false.1 demoO ⟨0, 0⟩ demoText10
    ⟨[⟨"天天天天天天天天天天天天天天天天天天天天".toList, ⟨"喜悦", 4⟩, [], []⟩],
     ⟨25, 10, 1⟩, some ⟨10, 20, 1, false⟩⟩
    rfl ⟨10, 20, 1, false⟩ rfl

/-- C1: the similarity deduplication never reaches any returned result.
(i) `find_duplicates` itself would drop the second of two texts whose
embedding dot product is 0.95 (above the 0.85 threshold).  (ii) At the call
site its return value is discarded: the `isinstance(dedup_result, dict)`
guard is `false` for the returned list, so the filtering block — including
the exact-text safety net — is skipped and `processed_segments` passes
through unchanged.  (iii) On the concrete near-duplicate scenario the
program never returns any result at all: with the true emotion-call
behavior (the `result["result"]` read of line 100 raises `KeyError`), every
partition dies and `process_text` raises its step-1 ValueError, so no
deduplicated result is ever produced. -/
theorem C1_similarity_dedup_discarded :
    (findDuplicates embed1 [tA1, tB1]).1 = [tA1] ∧
    (∀ pss : List ProcessedSeg, dedupFilterBlock pss false = (pss, none)) ∧
    resErrMsg (processText trueO ⟨0, 0⟩ input1) = some "文本处理失败：无法生成有效的文本段落" := by
  refine ⟨by decide, fun pss => rfl, by decide⟩

/-- C2: no usage total satisfying the claim is ever reported.  The analyzer
call at the first chunk of each partition succeeds at the provider (here
with 10 total tokens of usage), but the `result["result"]` read of line 100
then raises `KeyError`, the counter update of line 101 is never reached,
every partition dies, and `process_text` raises its step-1 ValueError: the
run ends with both instance counters still at zero and no result — hence no
`usage.total_tokens` — reported, while the provider-side charges were
incurred.  (The accounting code itself, were it reachable, is also not
additive: each partition's reported usage is the segment processor's
cumulative counter, and the deduplication embedding tokens are never added
because `getattr(dedup_result, "usage", ...)` finds no attribute on a
list.) -/
theorem C2_usage_total_misreported :
    analyze (demoEst p21) (demoResp p21) = .ok (.classified ⟨"喜悦", 4⟩ ⟨7, 3, 10⟩) ∧
    resErrMsg (processText trueO ⟨0, 0⟩ input2) = some "文本处理失败：无法生成有效的文本段落" ∧
    (processText trueO ⟨0, 0⟩ input2).st = ⟨0, 0⟩ := by
  refine ⟨rfl, by decide, by decide⟩

/-- C3: the rewriter-failure fallback described by the claim does not exist.
(i) No segment ever reaches the improvement loop: with the true
emotion-call behavior every partition dies in step 1 and `process_text`
raises ValueError, so the fallback can never run in the program.  (ii) The
handler itself (the step-2 loop embedded from lines 282-321, exercised
directly on a segment list) is broken: when the improvement call fails on
the first segment, the dict construction dereferences the unbound local
`result_json` and raises a NameError instead of continuing; (iii) when it
fails on a later segment, the previous segment's `changes_made` is recorded
for the failed segment instead of an empty list. -/
theorem C3_rewriter_fallback_crashes :
    resErrMsg (processText trueO ⟨0, 0⟩ input3) = some "文本处理失败：无法生成有效的文本段落" ∧
    (step2Loop improveFail demoRefs [⟨t31, demoEmotion⟩] ⟨none, none⟩).1 =
      .error "NameError: name result_json is not defined" ∧
    ((step2Loop improve1 demoRefs [⟨t31, demoEmotion⟩, ⟨t32, demoEmotion⟩]
        ⟨none, none⟩).1.toOption.map fun pss => pss.map fun s => s.changes) =
      some [["修正了错别字"], ["修正了错别字"]] := by
  refine ⟨by decide, rfl, by decide⟩

end SZGX
